import Mathlib

/-!
# The render context of `src/context.cc`: a shallow embedding

The file embeds the code of `context.cc` / `context.h`:

* `ReactorWorker`, the per-thread permission check handed to the rendering engine;
* `CompSurfContext::init_egl`, the display-configuration scan;
* the `CompSurfContext` constructor, `resize` and `draw_frame` together with the
  render callback that `draw_frame` passes to the renderer.

Calls into EGL and into the rendering engine are foreign.  Every such call is
recorded as an `Event` of a trace, and what the foreign side answers (a return
code, a handle, a render target) is read from a record of platform answers that
is an argument of the embedded function.  A C `assert` that fails stops the
process (`Status.aborted`); an access past the end of a `std::vector` has no
defined continuation (`Status.undefined`).
-/

set_option linter.unusedVariables false
set_option linter.dupNamespace false

namespace CompSurf

/-! ## ReactorWorker -/

/-- The value of `std::this_thread::get_id()`. -/
abbrev ThreadId := Nat

/-- The lookup `reactions_allowed_.find(id)` of the `std::map`: the mapped value
of the entry whose key is `id`, `none` for `end()`. -/
def mapFind : List (ThreadId × Bool) → ThreadId → Option Bool
  | [], _ => none
  | (k, v) :: rest, id => if k = id then some v else mapFind rest id

/-- The assignment `reactions_allowed_[id] = allowed` of the `std::map`: the
entry of key `id` gets the value when there is one, else a new entry is put at
the key's place in the key order. -/
def mapAssign : List (ThreadId × Bool) → ThreadId → Bool → List (ThreadId × Bool)
  | [], id, allowed => [(id, allowed)]
  | (k, v) :: rest, id, allowed =>
    if id < k then (id, allowed) :: (k, v) :: rest
    else if id = k then (id, allowed) :: rest
    else (k, v) :: mapAssign rest id allowed

/-- The class `ReactorWorker`: its one data member is the map
`reactions_allowed_`.  The members run under `mutex_` (reader lock for the
query, writer lock for the update), so each is one atomic step on the map and
the calls of all threads form one sequence. -/
structure ReactorWorker where
  reactions_allowed_ : List (ThreadId × Bool)
  deriving DecidableEq, Repr

namespace ReactorWorker

/-- The constructor `ReactorWorker() = default`: the map is empty. -/
def fresh : ReactorWorker := ⟨[]⟩

/-- The member `CanReactorReactOnCurrentThreadNow`, called on thread `thisThread`. -/
def CanReactorReactOnCurrentThreadNow (w : ReactorWorker) (thisThread : ThreadId) : Bool :=
  match mapFind w.reactions_allowed_ thisThread with
  | none => false
  | some second => second

/-- The member `SetReactionsAllowedOnCurrentThread(allowed)`, called on thread
`thisThread`. -/
def SetReactionsAllowedOnCurrentThread (w : ReactorWorker) (thisThread : ThreadId)
    (allowed : Bool) : ReactorWorker :=
  ⟨mapAssign w.reactions_allowed_ thisThread allowed⟩

/-- A sequence of `SetReactionsAllowedOnCurrentThread` calls, each given as the
calling thread and the argument, run in order. -/
def setCalls (w : ReactorWorker) : List (ThreadId × Bool) → ReactorWorker
  | [] => w
  | (t, allowed) :: rest => setCalls (w.SetReactionsAllowedOnCurrentThread t allowed) rest

end ReactorWorker

/-! ## Handles, engine values and the trace -/

/-- An `EGLSurface` handle; `EGL_NO_SURFACE` is the null handle. -/
abbrev EGLSurface := Nat

/-- An `EGLContext` handle; `EGL_NO_CONTEXT` is the null handle. -/
abbrev EGLContext := Nat

/-- An `EGLConfig` handle; `nullptr` is 0. -/
abbrev EGLConfig := Nat

def EGL_NO_SURFACE : EGLSurface := 0

def EGL_NO_CONTEXT : EGLContext := 0

/-- The engine's `impeller::PixelFormat` (the members `context.cc` names). -/
inductive PixelFormat
  | kA8UNormInt
  | kR8G8B8A8UNormInt
  | kR8G8B8A8UNormIntSRGB
  | kB8G8R8A8UNormInt
  | kB8G8R8A8UNormIntSRGB
  | kS8UInt
  deriving DecidableEq, Repr

inductive TextureType
  | kTexture2D
  | kTexture2DMultisample
  | kTextureCube
  deriving DecidableEq, Repr

inductive TextureUsage
  | kUnknown
  | kShaderRead
  | kShaderWrite
  | kRenderTarget
  deriving DecidableEq, Repr

inductive SampleCount
  | kCount1
  | kCount4
  deriving DecidableEq, Repr

inductive StorageMode
  | kHostVisible
  | kDevicePrivate
  | kDeviceTransient
  deriving DecidableEq, Repr

inductive LoadAction
  | kDontCare
  | kLoad
  | kClear
  deriving DecidableEq, Repr

inductive StoreAction
  | kDontCare
  | kStore
  deriving DecidableEq, Repr

/-- The engine's `impeller::ISize`. -/
structure ISize where
  width : Int
  height : Int
  deriving DecidableEq, Repr

/-- The constructor `impeller::ISize::MakeWH`. -/
def ISize.MakeWH (width height : Int) : ISize := ⟨width, height⟩

/-- The fields of `impeller::TextureDescriptor` that the render callback assigns. -/
structure TextureDescriptor where
  type : TextureType
  format : PixelFormat
  size : ISize
  usage : TextureUsage
  sample_count : SampleCount
  storage_mode : StorageMode
  deriving DecidableEq, Repr

/-- The fields of `impeller::DepthAttachment` that the render callback assigns.
The texture is what the allocator's `CreateTexture` returned: the texture of the
descriptor it was given, or `none` for a null pointer.  `clear_depth` is the
constant the code assigns, kept as an exact number. -/
structure DepthAttachment where
  load_action : LoadAction
  store_action : StoreAction
  clear_depth : Rat
  texture : Option TextureDescriptor
  deriving DecidableEq, Repr

/-- The `impeller::RenderTarget` as the callback sees it: its size
(`GetRenderTargetSize`) and the depth attachment set on it, if any. -/
structure RenderTarget where
  size : ISize
  depth : Option DepthAttachment
  deriving DecidableEq, Repr

/-- The member `RenderTarget::SetDepthAttachment`. -/
def RenderTarget.SetDepthAttachment (render_target : RenderTarget) (depth : DepthAttachment) :
    RenderTarget :=
  { render_target with depth := some depth }

/-- Modelled from the spec: `examples/example_base.h` (class `example::ExampleBase`)
is not among the sources.  A scene has "name, human-readable description, and a
capability to set up against a GPU context and to render into a frame given a
command buffer"; both capabilities report success or failure.  `Setup` is what
the one-time setup reports, `Render` what the render operation reports for the
render target it is handed. -/
structure ExampleBase where
  name : String
  description : String
  Setup : Bool
  Render : RenderTarget → Bool

/-- One foreign call, with its arguments and what the platform or the engine
answered. -/
inductive Event
  | eglInitialize (ret : Bool)
  | eglBindAPI (ret : Bool)
  | eglGetConfigs (count : Int)
  | calloc (ok : Bool)
  | eglChooseConfig (ret : Bool) (n : Nat)
  | eglGetConfigAttrib (config : EGLConfig) (size : Int)
  | eglCreateContext (config : EGLConfig) (context : EGLContext)
  | create_egl_surface (config : EGLConfig) (surface : EGLSurface)
  | eglMakeCurrent (draw read : EGLSurface) (context : EGLContext) (ret : Bool)
  | eglSwapBuffers (surface : EGLSurface)
  | ProcTableGLES (valid : Bool)
  | ContextGLES_Create (ok : Bool)
  | AddReactorWorker (ok : Bool)
  | Setup (name : String) (ok : Bool)
  | WrapFBO (format : PixelFormat) (size : ISize)
  | CreateCommandBuffer (ok : Bool)
  | SetLabel (label : String)
  | CreateTexture (desc : TextureDescriptor) (ok : Bool)
  | SetDepthAttachment (depth : DepthAttachment)
  | Render (index : Nat) (ok : Bool)
  | SubmitCommands (ret : Bool)
  deriving DecidableEq, Repr

/-- How an embedded function ends: it returns a value, a C `assert` fails and
the process stops, or it indexes a `std::vector` past its end. -/
inductive Status (α : Type)
  | returned (value : α)
  | aborted
  | undefined
  deriving DecidableEq, Repr

/-- A run of an embedded function: the foreign calls it made, in order, and how
it ended. -/
structure Run (α : Type) where
  trace : List Event
  status : Status α

/-- The surfaces and context current on a thread. -/
structure Current where
  draw : EGLSurface
  read : EGLSurface
  context : EGLContext
  deriving DecidableEq, Repr

/-- Nothing is current: `EGL_NO_SURFACE`, `EGL_NO_SURFACE`, `EGL_NO_CONTEXT`. -/
def Current.unbound : Current := ⟨EGL_NO_SURFACE, EGL_NO_SURFACE, EGL_NO_CONTEXT⟩

/-- What is current on the calling thread after the calls of a trace, as EGL
defines `eglMakeCurrent`: a call that returned `EGL_TRUE` makes its arguments
current, a call that returned `EGL_FALSE` changes nothing. -/
def currentAfter (c : Current) : List Event → Current
  | [] => c
  | Event.eglMakeCurrent d r x true :: rest => currentAfter ⟨d, r, x⟩ rest
  | _ :: rest => currentAfter c rest

/-- The arguments of the last `eglMakeCurrent` call of a trace. -/
def lastMakeCurrent : List Event → Option Current
  | [] => none
  | e :: rest =>
    match lastMakeCurrent rest with
    | some c => some c
    | none =>
      match e with
      | Event.eglMakeCurrent d r x _ => some ⟨d, r, x⟩
      | _ => none

/-- The size of the surface a trace wrapped around the frame buffer: the size
argument of its first `WrapFBO` call. -/
def wrappedSize : List Event → Option ISize
  | [] => none
  | Event.WrapFBO _ size :: _ => some size
  | _ :: rest => wrappedSize rest

/-! ## init_egl -/

/-- A configuration handle together with the `EGL_BUFFER_SIZE` that
`eglGetConfigAttrib` writes to `size` for it (the query itself is taken to
succeed; its return value is not read by the code). -/
structure ConfigInfo where
  handle : EGLConfig
  bufferSize : Int
  deriving DecidableEq, Repr

/-- What the platform answers during `init_egl`. `configs` are the `n`
configurations `eglChooseConfig` wrote, in its order. -/
structure EglAnswers where
  eglInitialize : Bool
  eglBindAPI : Bool
  count : Int
  calloc : Bool
  eglChooseConfig : Bool
  configs : List ConfigInfo
  eglCreateContext : EGLContext
  create_egl_surface : EGLSurface
  deriving DecidableEq, Repr

def kEglBufferSize : Int := 24

/-- The loop `for (EGLint i = 0; i < n; i++)` of `init_egl`: the attribute
queries it makes and the value of `egl_conf` after it (`nullptr` is 0). -/
def scanConfigs : List ConfigInfo → List Event × EGLConfig
  | [] => ([], 0)
  | c :: rest =>
    if kEglBufferSize ≤ c.bufferSize then
      ([Event.eglGetConfigAttrib c.handle c.bufferSize], c.handle)
    else
      let r := scanConfigs rest
      (Event.eglGetConfigAttrib c.handle c.bufferSize :: r.1, r.2)

/-- The member `CompSurfContext::init_egl`, with its `assert`s compiled in; the
value returned stands for the two reference parameters `eglSurface` and
`eglContext` it assigns. -/
def init_egl (a : EglAnswers) : Run (EGLSurface × EGLContext) :=
  let t1 := [Event.eglInitialize a.eglInitialize]
  if a.eglInitialize = false then ⟨t1, .aborted⟩ else
  let t2 := t1 ++ [Event.eglBindAPI a.eglBindAPI]
  if a.eglBindAPI = false then ⟨t2, .aborted⟩ else
  let t3 := t2 ++ [Event.eglGetConfigs a.count]
  if a.count = 0 then ⟨t3, .aborted⟩ else
  let t4 := t3 ++ [Event.calloc a.calloc]
  if a.calloc = false then ⟨t4, .aborted⟩ else
  let t5 := t4 ++ [Event.eglChooseConfig a.eglChooseConfig a.configs.length]
  if a.eglChooseConfig = false ∨ a.configs.length < 1 then ⟨t5, .aborted⟩ else
  let scan := scanConfigs a.configs
  let t6 := t5 ++ scan.1
  let egl_conf := scan.2
  if egl_conf = 0 then ⟨t6, .aborted⟩ else
  let t7 := t6 ++ [Event.eglCreateContext egl_conf a.eglCreateContext,
                   Event.create_egl_surface egl_conf a.create_egl_surface]
  if a.create_egl_surface = EGL_NO_SURFACE then ⟨t7, .aborted⟩ else
  ⟨t7, .returned (a.create_egl_surface, a.eglCreateContext)⟩

/-! ## The render context -/

/-- The struct `NATIVE_WINDOW` of `context.h`; a pointer member is its address,
0 for null. -/
structure NATIVE_WINDOW where
  wl_display : Nat
  wl_surface : Nat
  egl_display : Nat
  egl_window : Nat
  width : Nat
  height : Nat
  deriving DecidableEq, Repr

/-- The member `mEgl` of `CompSurfContext`. -/
structure Egl where
  eglSurface : EGLSurface
  eglContext : EGLContext
  deriving DecidableEq, Repr

/-- The data members of `CompSurfContext`.  `mContext` and `mRenderer` are
engine objects; of them the embedding keeps the reactor worker registered with
`mContext`. -/
structure CompSurfContext where
  mAccessToken : String
  mAssetsPath : String
  mCachePath : String
  mMiscPath : String
  mWidth : Int
  mHeight : Int
  worker : ReactorWorker
  mExamples : List ExampleBase
  mExampleNames : List String
  mNativeWindow : NATIVE_WINDOW
  mEgl : Egl

/-- What the platform and the engine answer during the constructor, and the
contents of the two members the constructor never assigns: `mWidth` and
`mHeight` have no initialiser in `context.h` and none in the constructor's
initialiser list, so they hold whatever the object's storage held. -/
structure CtorAnswers where
  egl : EglAnswers
  eglMakeCurrent : Bool
  procTableValid : Bool
  contextCreated : Bool
  workerRegistered : Bool
  eglMakeCurrentRelease : Bool
  storedWidth : Int
  storedHeight : Int
  deriving DecidableEq, Repr

/-- The loop `for (auto& item : mExamples)` of the constructor, started with
the names pushed so far: the names after it, the `Setup` calls it made, and
whether it ran to its end (`false`: a `Setup` reported failure and the
constructor returned from inside the loop). -/
def setupLoop : List ExampleBase → List String → List String × List Event × Bool
  | [], names => (names, [], true)
  | item :: rest, names =>
    if item.Setup = false then
      (names ++ [item.name], [Event.Setup item.name false], false)
    else
      let r := setupLoop rest (names ++ [item.name])
      (r.1, Event.Setup item.name true :: r.2.1, r.2.2)

namespace CompSurfContext

/-- The constructor `CompSurfContext::CompSurfContext`, run on thread
`thisThread`.  `nativeWindow` is `none` for a null pointer.
`theImpellerExample` is the `example::TheImpellerExample` object the constructor
makes (its class is not among the sources). -/
def CompSurfContext (thisThread : ThreadId) (a : CtorAnswers) (theImpellerExample : ExampleBase)
    (accessToken : String) (width height : Int) (nativeWindow : Option NATIVE_WINDOW)
    (assetsPath cachePath miscPath : String) : Run CompSurf.CompSurfContext :=
  match nativeWindow with
  | none => ⟨[], .aborted⟩
  | some mNativeWindow =>
  if mNativeWindow.egl_display = 0 then ⟨[], .aborted⟩ else
  if mNativeWindow.egl_window = 0 then ⟨[], .aborted⟩ else
  let egl := init_egl a.egl
  match egl.status with
  | .aborted => ⟨egl.trace, .aborted⟩
  | .undefined => ⟨egl.trace, .undefined⟩
  | .returned (eglSurface, eglContext) =>
  let t1 := egl.trace ++ [Event.eglMakeCurrent eglSurface eglSurface eglContext a.eglMakeCurrent]
  if a.eglMakeCurrent = false then ⟨t1, .aborted⟩ else
  let t2 := t1 ++ [Event.ProcTableGLES a.procTableValid]
  if a.procTableValid = false then ⟨t2, .aborted⟩ else
  let t3 := t2 ++ [Event.ContextGLES_Create a.contextCreated]
  if a.contextCreated = false then ⟨t3, .aborted⟩ else
  let worker := ReactorWorker.fresh.SetReactionsAllowedOnCurrentThread thisThread true
  let t4 := t3 ++ [Event.AddReactorWorker a.workerRegistered]
  if a.workerRegistered = false then ⟨t4, .aborted⟩ else
  let mExamples := [theImpellerExample]
  let loop := setupLoop mExamples []
  let self : CompSurf.CompSurfContext :=
    { mAccessToken := accessToken, mAssetsPath := assetsPath, mCachePath := cachePath,
      mMiscPath := miscPath, mWidth := a.storedWidth, mHeight := a.storedHeight,
      worker := worker, mExamples := mExamples, mExampleNames := loop.1,
      mNativeWindow := mNativeWindow, mEgl := ⟨eglSurface, eglContext⟩ }
  let t5 := t4 ++ loop.2.1
  if loop.2.2 = false then ⟨t5, .returned self⟩ else
  ⟨t5 ++ [Event.eglMakeCurrent EGL_NO_SURFACE EGL_NO_SURFACE EGL_NO_CONTEXT
            a.eglMakeCurrentRelease], .returned self⟩

/-- The member `resize`: its body is empty. -/
def resize (self : CompSurf.CompSurfContext) (width height : Int) : CompSurf.CompSurfContext :=
  self

/-- The local `static int selected_example_index = 1;` of the render callback.
Every statement that assigns it lies in a region the preprocessor removes, so it
keeps its initial value in every call. -/
def selected_example_index : Nat := 1

/-- What the platform and the engine answer during one `draw_frame`.
`render_target` is the target the renderer's `Render` hands to the callback,
`none` when it returns without calling it; `present` says whether, after the
callback returned `true`, the renderer calls the surface's swap callback. -/
structure FrameAnswers where
  eglMakeCurrent : Bool
  render_target : Option RenderTarget
  CreateCommandBuffer : Bool
  CreateTexture : Bool
  SubmitCommands : Bool
  present : Bool
  eglMakeCurrentRelease : Bool
  deriving DecidableEq, Repr

/-- The descriptor `depth_texture_desc` the callback fills in. -/
def depth_texture_desc (render_target : RenderTarget) : TextureDescriptor :=
  { type := TextureType.kTexture2D
    format := PixelFormat.kR8G8B8A8UNormInt
    size := render_target.size
    usage := TextureUsage.kRenderTarget
    sample_count := SampleCount.kCount1
    storage_mode := StorageMode.kDevicePrivate }

/-- The attachment `depth` the callback fills in; `created` says whether
`CreateTexture` returned a texture. -/
def depth (render_target : RenderTarget) (created : Bool) : DepthAttachment :=
  { load_action := LoadAction.kClear
    store_action := StoreAction.kDontCare
    clear_depth := 1
    texture := if created then some (depth_texture_desc render_target) else none }

/-- The lambda `render_callback` of `draw_frame`, called with `render_target`. -/
def render_callback (self : CompSurf.CompSurfContext) (a : FrameAnswers)
    (render_target : RenderTarget) : Run Bool :=
  match self.mExamples.get? selected_example_index with
  | none => ⟨[], .undefined⟩
  | some example_ =>
  let t1 := [Event.CreateCommandBuffer a.CreateCommandBuffer]
  if a.CreateCommandBuffer = false then ⟨t1, .returned false⟩ else
  let d := depth render_target a.CreateTexture
  let target := render_target.SetDepthAttachment d
  let rendered := example_.Render target
  let t2 := t1 ++ [Event.SetLabel "Command Buffer",
                   Event.CreateTexture (depth_texture_desc render_target) a.CreateTexture,
                   Event.SetDepthAttachment d,
                   Event.Render selected_example_index rendered]
  if rendered = false then ⟨t2, .returned false⟩ else
  ⟨t2 ++ [Event.SubmitCommands a.SubmitCommands], .returned a.SubmitCommands⟩

/-- The member `draw_frame`.  The renderer's `Render(surface, render_callback)`
is the engine's: it calls the callback with the surface's render target or not
at all, and presents (the swap callback, `eglSwapBuffers`) only after the
callback returned `true`. -/
def draw_frame (self : CompSurf.CompSurfContext) (a : FrameAnswers) (time : Nat) : Run Unit :=
  let t1 := [Event.eglMakeCurrent self.mEgl.eglSurface self.mEgl.eglSurface self.mEgl.eglContext
               a.eglMakeCurrent,
             Event.WrapFBO PixelFormat.kR8G8B8A8UNormInt (ISize.MakeWH self.mWidth self.mHeight)]
  let release := Event.eglMakeCurrent EGL_NO_SURFACE EGL_NO_SURFACE EGL_NO_CONTEXT
                   a.eglMakeCurrentRelease
  match a.render_target with
  | none => ⟨t1 ++ [release], .returned ()⟩
  | some render_target =>
    let cb := render_callback self a render_target
    match cb.status with
    | .undefined => ⟨t1 ++ cb.trace, .undefined⟩
    | .aborted => ⟨t1 ++ cb.trace, .aborted⟩
    | .returned ok =>
      let swap := if ok = true ∧ a.present = true then [Event.eglSwapBuffers self.mEgl.eglSurface]
                  else []
      ⟨t1 ++ cb.trace ++ swap ++ [release], .returned ()⟩

end CompSurfContext

/-! ## Concrete inputs -/

/-- A native window with a display and a window. -/
def window : NATIVE_WINDOW :=
  { wl_display := 1, wl_surface := 2, egl_display := 3, egl_window := 4,
    width := 1920, height := 1080 }

/-- Three configurations; the second is the first with a buffer size of 24 or more. -/
def eglAnswers : EglAnswers :=
  { eglInitialize := true, eglBindAPI := true, count := 3, calloc := true,
    eglChooseConfig := true,
    configs := [⟨11, 16⟩, ⟨12, 32⟩, ⟨13, 24⟩],
    eglCreateContext := 7, create_egl_surface := 8 }

/-- Two configurations, neither with a buffer size of 24 or more. -/
def eglAnswersSmall : EglAnswers :=
  { eglAnswers with configs := [⟨11, 16⟩, ⟨14, 8⟩] }

/-- Every call of the constructor succeeds; the storage of `mWidth` and
`mHeight` held zeros. -/
def ctorAnswers : CtorAnswers :=
  { egl := eglAnswers, eglMakeCurrent := true, procTableValid := true,
    contextCreated := true, workerRegistered := true, eglMakeCurrentRelease := true,
    storedWidth := 0, storedHeight := 0 }

/-- A scene whose setup and render succeed. -/
def sceneOk : ExampleBase :=
  { name := "The Impeller", description := "", Setup := true, Render := fun _ => true }

/-- A scene whose setup reports failure. -/
def sceneSetupFails : ExampleBase :=
  { name := "The Impeller", description := "", Setup := false, Render := fun _ => true }

/-- A render context whose registry holds two scenes, as it does when both
`push_back` lines of the constructor are compiled; `second` is the scene at
index 1. -/
def twoScenes (second : ExampleBase) : CompSurfContext :=
  { mAccessToken := "", mAssetsPath := "", mCachePath := "", mMiscPath := "",
    mWidth := 0, mHeight := 0,
    worker := ReactorWorker.fresh.SetReactionsAllowedOnCurrentThread 1 true,
    mExamples := [sceneOk, second], mExampleNames := ["The Impeller", second.name],
    mNativeWindow := window, mEgl := ⟨8, 7⟩ }

/-- The context the constructor builds for `window` on thread 1 when every
call succeeds, as the constructor leaves it. -/
def built : CompSurfContext :=
  { mAccessToken := "token", mAssetsPath := "assets", mCachePath := "cache",
    mMiscPath := "misc", mWidth := 0, mHeight := 0,
    worker := ReactorWorker.fresh.SetReactionsAllowedOnCurrentThread 1 true,
    mExamples := [sceneOk], mExampleNames := ["The Impeller"],
    mNativeWindow := window, mEgl := ⟨8, 7⟩ }

/-- A frame in which every call succeeds, on a 640 by 480 render target. -/
def frameAnswers : CompSurfContext.FrameAnswers :=
  { eglMakeCurrent := true, render_target := some ⟨⟨640, 480⟩, none⟩,
    CreateCommandBuffer := true, CreateTexture := true, SubmitCommands := true,
    present := true, eglMakeCurrentRelease := true }

/-- A frame in which `eglMakeCurrent` at the start of `draw_frame` returns
`EGL_FALSE` and every other call succeeds. -/
def frameAnswersNotCurrent : CompSurfContext.FrameAnswers :=
  { frameAnswers with eglMakeCurrent := false }

/-- A sequence of `resize` calls, each given as its width and height, run in
order. -/
def resizeCalls (self : CompSurfContext) : List (Int × Int) → CompSurfContext
  | [] => self
  | (width, height) :: rest => resizeCalls (self.resize width height) rest

/-! ### Lemmas on the map -/

theorem mapFind_mapAssign_same (m : List (ThreadId × Bool)) (id : ThreadId) (b : Bool) :
    mapFind (mapAssign m id b) id = some b := by
  induction m with
  | nil => simp [mapAssign, mapFind]
  | cons e rest ih =>
    obtain ⟨k, v⟩ := e
    by_cases h1 : id < k
    · simp [mapAssign, mapFind, h1]
    · by_cases h2 : id = k
      · simp [mapAssign, mapFind, h2]
      · have h3 : ¬ k = id := fun h => h2 h.symm
        simp [mapAssign, mapFind, h1, h2, h3, ih]

theorem mapFind_mapAssign_other (m : List (ThreadId × Bool)) (id other : ThreadId) (b : Bool)
    (hne : other ≠ id) : mapFind (mapAssign m id b) other = mapFind m other := by
  induction m with
  | nil => simp [mapAssign, mapFind, hne.symm]
  | cons e rest ih =>
    obtain ⟨k, v⟩ := e
    by_cases h1 : id < k
    · simp [mapAssign, mapFind, h1, hne.symm]
    · by_cases h2 : id = k
      · subst h2
        simp [mapAssign, mapFind, hne.symm]
      · by_cases h3 : k = other
        · subst h3
          simp [mapAssign, mapFind, h1, h2]
        · simp [mapAssign, mapFind, h1, h2, h3, ih]

theorem query_set_same (w : ReactorWorker) (t : ThreadId) (b : Bool) :
    (w.SetReactionsAllowedOnCurrentThread t b).CanReactorReactOnCurrentThreadNow t = b := by
  simp [ReactorWorker.SetReactionsAllowedOnCurrentThread,
    ReactorWorker.CanReactorReactOnCurrentThreadNow, mapFind_mapAssign_same]

theorem query_set_other (w : ReactorWorker) (t u : ThreadId) (b : Bool) (hne : u ≠ t) :
    (w.SetReactionsAllowedOnCurrentThread t b).CanReactorReactOnCurrentThreadNow u
      = w.CanReactorReactOnCurrentThreadNow u := by
  simp [ReactorWorker.SetReactionsAllowedOnCurrentThread,
    ReactorWorker.CanReactorReactOnCurrentThreadNow, mapFind_mapAssign_other _ _ _ _ hne]

/-- Calls made by threads other than `u` leave the answer to `u` as it was. -/
theorem query_setCalls_others (calls : List (ThreadId × Bool)) (w : ReactorWorker)
    (u : ThreadId) (hu : ∀ c ∈ calls, c.1 ≠ u) :
    (w.setCalls calls).CanReactorReactOnCurrentThreadNow u
      = w.CanReactorReactOnCurrentThreadNow u := by
  induction calls generalizing w with
  | nil => rfl
  | cons c rest ih =>
    obtain ⟨t, b⟩ := c
    have ht : u ≠ t := fun h => hu (t, b) (List.mem_cons_self _ _) h.symm
    have hrest : ∀ c ∈ rest, c.1 ≠ u := fun c hc => hu c (List.mem_cons_of_mem _ hc)
    simp only [ReactorWorker.setCalls]
    rw [ih _ hrest, query_set_other w t u b ht]

theorem setCalls_append (w : ReactorWorker) (xs ys : List (ThreadId × Bool)) :
    w.setCalls (xs ++ ys) = (w.setCalls xs).setCalls ys := by
  induction xs generalizing w with
  | nil => rfl
  | cons c rest ih =>
    obtain ⟨t, b⟩ := c
    simp only [List.cons_append, ReactorWorker.setCalls]
    exact ih _

/-! ### The reactor worker -/

/-- C4: a query from thread `t` returns the argument of the most recent
`SetReactionsAllowedOnCurrentThread` call made by `t`.  Directly after
`SetReactionsAllowedOnCurrentThread(true)` on `t` the query from `t` returns
`true`, whatever the worker held before; and when `t` called with `allowed`
after the calls `before` and only other threads called afterwards (`after`), the
query from `t` returns `allowed`. -/
theorem reactor_worker_last_call (before after : List (ThreadId × Bool)) (t : ThreadId)
    (allowed : Bool) (hafter : ∀ c ∈ after, c.1 ≠ t) :
    (∀ w : ReactorWorker,
      (w.SetReactionsAllowedOnCurrentThread t true).CanReactorReactOnCurrentThreadNow t = true) ∧
    (ReactorWorker.fresh.setCalls (before ++ (t, allowed) :: after)).CanReactorReactOnCurrentThreadNow t
      = allowed := by
  refine ⟨fun w => query_set_same w t true, ?_⟩
  rw [setCalls_append]
  simp only [ReactorWorker.setCalls]
  rw [query_setCalls_others after _ t hafter, query_set_same]

theorem reactor_worker_last_call_witness :
    (∀ c ∈ [((2 : ThreadId), true), (3, true)], c.1 ≠ 1) ∧
    (ReactorWorker.fresh.setCalls
      ([(1, true), (2, false)] ++ (1, false) :: [(2, true), (3, true)])).CanReactorReactOnCurrentThreadNow 1
      = false :=
  ⟨by decide,
   (reactor_worker_last_call [(1, true), (2, false)] [(2, true), (3, true)] 1 false
      (by decide)).2⟩

/-! ### The configuration scan -/

theorem scanConfigs_first (l : List ConfigInfo) (i : Nat) (c : ConfigInfo)
    (hi : l[i]? = some c) (hc : 24 ≤ c.bufferSize)
    (hlt : ∀ j cj, j < i → l[j]? = some cj → cj.bufferSize < 24) :
    scanConfigs l
      = ((l.take (i + 1)).map fun x => Event.eglGetConfigAttrib x.handle x.bufferSize,
         c.handle) := by
  induction l generalizing i with
  | nil => simp at hi
  | cons x rest ih =>
    cases i with
    | zero =>
      simp at hi
      subst hi
      simp [scanConfigs, kEglBufferSize, hc]
    | succ k =>
      have hx : x.bufferSize < 24 := hlt 0 x (Nat.succ_pos k) (by simp)
      have hx2 : ¬ (24 : Int) ≤ x.bufferSize := not_le.mpr hx
      have hk : rest[k]? = some c := by simpa using hi
      have hrest : ∀ j cj, j < k → rest[j]? = some cj → cj.bufferSize < 24 := by
        intro j cj hj hcj
        exact hlt (j + 1) cj (Nat.succ_lt_succ hj) (by simpa using hcj)
      simp [scanConfigs, kEglBufferSize, hx2, ih k hk hrest]

theorem scanConfigs_none (l : List ConfigInfo) (h : ∀ c ∈ l, c.bufferSize < 24) :
    scanConfigs l = (l.map fun x => Event.eglGetConfigAttrib x.handle x.bufferSize, 0) := by
  induction l with
  | nil => rfl
  | cons x rest ih =>
    have hx2 : ¬ (24 : Int) ≤ x.bufferSize := not_le.mpr (h x (List.mem_cons_self _ _))
    have hrest : ∀ c ∈ rest, c.bufferSize < 24 := fun c hc => h c (List.mem_cons_of_mem _ hc)
    simp [scanConfigs, kEglBufferSize, hx2, ih hrest]

/-- When `init_egl` aborts, the constructor aborts, and it has made no call
that `init_egl` did not make. -/
theorem constructor_aborts_with_init_egl (thisThread : ThreadId) (a : CtorAnswers)
    (theImpellerExample : ExampleBase) (accessToken : String) (width height : Int)
    (nativeWindow : Option NATIVE_WINDOW) (assetsPath cachePath miscPath : String)
    (h : (init_egl a.egl).status = Status.aborted) :
    (CompSurfContext.CompSurfContext thisThread a theImpellerExample accessToken width height
        nativeWindow assetsPath cachePath miscPath).status = Status.aborted ∧
    ∀ e ∈ (CompSurfContext.CompSurfContext thisThread a theImpellerExample accessToken width
        height nativeWindow assetsPath cachePath miscPath).trace, e ∈ (init_egl a.egl).trace := by
  unfold CompSurfContext.CompSurfContext
  cases nativeWindow with
  | none => simp
  | some nw =>
    simp only
    split_ifs <;> simp [h]

/-- C8: the configuration scan of `init_egl` selects the first configuration, in
the order `eglChooseConfig` returned them, whose `EGL_BUFFER_SIZE` is at least
24.  Let the calls before the scan succeed, the list hold `n ≥ 1` configurations
and every handle be a valid (non-null) one.  When `c` is the configuration at
the least index `i` with buffer size at least 24, the scan queries exactly the
configurations at indices `0..i`, `egl_conf` is the handle of `c`, and the
context and the surface are created with it.  When no configuration has buffer
size at least 24, `init_egl` aborts and its trace has no `eglCreateContext` and
no surface-creation call, and the same holds of every constructor run that gets
these answers. -/
theorem init_egl_selects_first_qualifying (a : EglAnswers)
    (h1 : a.eglInitialize = true) (h2 : a.eglBindAPI = true) (h3 : a.count ≠ 0)
    (h4 : a.calloc = true) (h5 : a.eglChooseConfig = true) (h6 : 1 ≤ a.configs.length)
    (hnull : ∀ c ∈ a.configs, c.handle ≠ 0) :
    (∀ i c, a.configs[i]? = some c → 24 ≤ c.bufferSize →
        (∀ j cj, j < i → a.configs[j]? = some cj → cj.bufferSize < 24) →
        (scanConfigs a.configs).2 = c.handle ∧
        (init_egl a).trace
          = [Event.eglInitialize true, Event.eglBindAPI true, Event.eglGetConfigs a.count,
             Event.calloc true, Event.eglChooseConfig true a.configs.length]
            ++ ((a.configs.take (i + 1)).map
                  fun x => Event.eglGetConfigAttrib x.handle x.bufferSize)
            ++ [Event.eglCreateContext c.handle a.eglCreateContext,
                Event.create_egl_surface c.handle a.create_egl_surface]) ∧
    ((∀ c ∈ a.configs, c.bufferSize < 24) →
        ((init_egl a).status = Status.aborted ∧
         ∀ e ∈ (init_egl a).trace,
          (∀ cfg x, e ≠ Event.eglCreateContext cfg x) ∧
          (∀ cfg x, e ≠ Event.create_egl_surface cfg x)) ∧
        ∀ (thisThread : ThreadId) (ca : CtorAnswers) (theImpellerExample : ExampleBase)
          (accessToken : String) (width height : Int) (nativeWindow : Option NATIVE_WINDOW)
          (assetsPath cachePath miscPath : String), ca.egl = a →
          (CompSurfContext.CompSurfContext thisThread ca theImpellerExample accessToken width
            height nativeWindow assetsPath cachePath miscPath).status = Status.aborted ∧
          ∀ e ∈ (CompSurfContext.CompSurfContext thisThread ca theImpellerExample accessToken
              width height nativeWindow assetsPath cachePath miscPath).trace,
            (∀ cfg x, e ≠ Event.eglCreateContext cfg x) ∧
            (∀ cfg x, e ≠ Event.create_egl_surface cfg x)) := by
  have h6' : ¬ a.configs.length < 1 := by omega
  constructor
  · intro i c hi hc hlt
    have hscan := scanConfigs_first a.configs i c hi hc hlt
    have hmem : c ∈ a.configs := List.getElem?_mem hi
    have hc0 : c.handle ≠ 0 := hnull c hmem
    refine ⟨by rw [hscan], ?_⟩
    simp only [init_egl, h1, h2, h3, h4, h5, h6', hscan]
    by_cases hs : a.create_egl_surface = EGL_NO_SURFACE <;> simp [hs, hc0]
  · intro hall
    have hscan := scanConfigs_none a.configs hall
    have hinit : (init_egl a).status = Status.aborted ∧
        ∀ e ∈ (init_egl a).trace,
          (∀ cfg x, e ≠ Event.eglCreateContext cfg x) ∧
          (∀ cfg x, e ≠ Event.create_egl_surface cfg x) := by
      simp only [init_egl, h1, h2, h3, h4, h5, h6', hscan]
      simp
    refine ⟨hinit, ?_⟩
    intro thisThread ca ex tok w h nw ap cp mp hca
    subst hca
    have hctor := constructor_aborts_with_init_egl thisThread ca ex tok w h nw ap cp mp hinit.1
    exact ⟨hctor.1, fun e he => hinit.2 e (hctor.2 e he)⟩

theorem init_egl_selects_first_qualifying_witness :
    (init_egl eglAnswers).trace
      = [Event.eglInitialize true, Event.eglBindAPI true, Event.eglGetConfigs 3,
         Event.calloc true, Event.eglChooseConfig true 3,
         Event.eglGetConfigAttrib 11 16, Event.eglGetConfigAttrib 12 32,
         Event.eglCreateContext 12 7, Event.create_egl_surface 12 8] ∧
    (init_egl eglAnswersSmall).status = Status.aborted :=
  ⟨((init_egl_selects_first_qualifying eglAnswers rfl rfl (by decide) rfl rfl (by decide)
      (by decide)).1 1 ⟨12, 32⟩ rfl (by decide)
      (by
        intro j cj hj hcj
        interval_cases j
        simp [eglAnswers] at hcj
        subst hcj
        decide)).2,
   ((init_egl_selects_first_qualifying eglAnswersSmall rfl rfl (by decide) rfl rfl (by decide)
      (by decide)).2 (by decide)).1.1⟩

/-! ### Traces -/

open CompSurfContext

/-- A frame returns exactly when the renderer does not call the callback or the
callback's index is inside the scene registry. -/
theorem draw_frame_returns_iff (self : CompSurfContext) (a : FrameAnswers) (time : Nat) :
    (self.draw_frame a time).status = Status.returned () ↔
      (a.render_target = none ∨ selected_example_index < self.mExamples.length) := by
  unfold draw_frame render_callback
  cases hrt : a.render_target with
  | none => simp
  | some rt =>
    cases hsel : self.mExamples.get? selected_example_index with
    | none =>
      have : ¬ selected_example_index < self.mExamples.length := by
        intro hlt
        rw [List.get?_eq_getElem?, List.getElem?_eq_getElem hlt] at hsel
        exact Option.noConfusion hsel
      simp [this]
    | some ex =>
      have : selected_example_index < self.mExamples.length := by
        rw [List.get?_eq_getElem?] at hsel
        exact (List.getElem?_eq_some.mp hsel).1
      simp only [this, or_true, iff_true]
      by_cases hb : a.CreateCommandBuffer = false
      · simp [hb]
      · by_cases hr : ex.Render (rt.SetDepthAttachment (depth rt a.CreateTexture)) = false
        · simp [hb, hr]
        · simp [hb, hr]

theorem resizeCalls_eq (self : CompSurfContext) (calls : List (Int × Int)) :
    resizeCalls self calls = self := by
  induction calls with
  | nil => rfl
  | cons c rest ih =>
    obtain ⟨w, h⟩ := c
    simpa [resizeCalls, resize] using ih

theorem wrappedSize_draw_frame (self : CompSurfContext) (a : FrameAnswers) (time : Nat) :
    wrappedSize (self.draw_frame a time).trace = some (ISize.MakeWH self.mWidth self.mHeight) := by
  unfold draw_frame
  cases a.render_target with
  | none => simp [wrappedSize]
  | some rt =>
    simp only
    cases (render_callback self a rt).status <;> simp [wrappedSize]

/-- C7, as the code has it: the surface `draw_frame` wraps around the frame
buffer has the width and height held in the members `mWidth` and `mHeight`, and
`resize` records nothing: after any sequence of `resize` calls the two members,
and so the wrapped size, are what they were before. -/
theorem draw_frame_wraps_stored_size (self : CompSurfContext) (calls : List (Int × Int))
    (a : FrameAnswers) (time : Nat) :
    (resizeCalls self calls).mWidth = self.mWidth ∧
    (resizeCalls self calls).mHeight = self.mHeight ∧
    wrappedSize ((resizeCalls self calls).draw_frame a time).trace
      = some (ISize.MakeWH self.mWidth self.mHeight) := by
  rw [resizeCalls_eq]
  exact ⟨rfl, rfl, wrappedSize_draw_frame self a time⟩

/-- C7 as stated fails: the context constructed with width 1920 and height 1080
(the storage of `mWidth` and `mHeight` holding zeros) wraps a 0 by 0 surface,
not a 1920 by 1080 one, and after `resize(800, 600)` it still wraps a 0 by 0
surface, not an 800 by 600 one. -/
theorem draw_frame_size_not_most_recent :
    (CompSurfContext.CompSurfContext 1 ctorAnswers sceneOk "token" 1920 1080 (some window)
        "assets" "cache" "misc").status = Status.returned built ∧
    wrappedSize (built.draw_frame frameAnswers 0).trace = some (ISize.MakeWH 0 0) ∧
    wrappedSize (built.draw_frame frameAnswers 0).trace ≠ some (ISize.MakeWH 1920 1080) ∧
    wrappedSize ((built.resize 800 600).draw_frame frameAnswers 0).trace
      = some (ISize.MakeWH 0 0) ∧
    wrappedSize ((built.resize 800 600).draw_frame frameAnswers 0).trace
      ≠ some (ISize.MakeWH 800 600) :=
  ⟨rfl, by decide, by decide, by decide, by decide⟩

/-! ### Defects -/

/-- Every context the constructor returns has exactly one registered scene, so
the callback's index is past the end of its registry; its reactor worker allows
the constructing thread and no other; and its `mWidth` and `mHeight` are not the
constructor's arguments but what the storage held. -/
theorem constructor_returned (thisThread : ThreadId) (a : CtorAnswers)
    (theImpellerExample : ExampleBase) (accessToken : String) (width height : Int)
    (nativeWindow : Option NATIVE_WINDOW) (assetsPath cachePath miscPath : String)
    (self : CompSurfContext)
    (h : (CompSurfContext.CompSurfContext thisThread a theImpellerExample accessToken width height
            nativeWindow assetsPath cachePath miscPath).status = Status.returned self) :
    self.mExamples = [theImpellerExample] ∧
    self.mExamples.get? selected_example_index = none ∧
    self.worker.CanReactorReactOnCurrentThreadNow thisThread = true ∧
    (∀ u, u ≠ thisThread → self.worker.CanReactorReactOnCurrentThreadNow u = false) ∧
    self.mWidth = a.storedWidth ∧ self.mHeight = a.storedHeight := by
  have key : self.mExamples = [theImpellerExample] ∧
      self.worker = ReactorWorker.fresh.SetReactionsAllowedOnCurrentThread thisThread true ∧
      self.mWidth = a.storedWidth ∧ self.mHeight = a.storedHeight := by
    revert h
    unfold CompSurfContext.CompSurfContext
    cases nativeWindow with
    | none => simp
    | some nw =>
      simp only
      cases hegl : (init_egl a.egl).status with
      | aborted => split_ifs <;> simp
      | undefined => split_ifs <;> simp
      | returned v =>
        obtain ⟨s, c⟩ := v
        simp only
        split_ifs <;> intro h <;>
          first
          | exact h.elim
          | exact Status.noConfusion h
          | (injection h with h; subst h; exact ⟨rfl, rfl, rfl, rfl⟩)
  obtain ⟨hex, hw, hwidth, hheight⟩ := key
  refine ⟨hex, by rw [hex]; rfl, ?_, ?_, hwidth, hheight⟩
  · rw [hw]; exact query_set_same _ _ _
  · intro u hu
    rw [hw, query_set_other _ _ _ _ hu]; rfl

/-- C2, the code at the failing input: the context the constructor builds holds
one scene, the callback's index is 1, the lookup at that index is past the end
of the registry, and a frame in which the renderer calls the callback has no
defined continuation. -/
theorem selected_example_index_out_of_range :
    (CompSurfContext.CompSurfContext 1 ctorAnswers sceneOk "token" 1920 1080 (some window)
        "assets" "cache" "misc").status = Status.returned built ∧
    built.mExamples.length = 1 ∧
    selected_example_index = 1 ∧
    ¬ selected_example_index < built.mExamples.length ∧
    (render_callback built frameAnswers ⟨⟨640, 480⟩, none⟩).status = Status.undefined ∧
    (built.draw_frame frameAnswers 0).status = Status.undefined :=
  ⟨rfl, rfl, rfl, by decide, by decide, by decide⟩

/-- C6, the code at the failing input: when the scene's setup reports failure
the constructor returns a context, the last `eglMakeCurrent` call of its trace
is the one that made surface 8 and context 7 current, and they are still current
on the constructing thread; when the setup succeeds the trace ends with the
release and nothing is current. -/
theorem constructor_setup_failure_leaves_context_current :
    (∃ self, (CompSurfContext.CompSurfContext 1 ctorAnswers sceneSetupFails "token" 1920 1080
        (some window) "assets" "cache" "misc").status = Status.returned self) ∧
    lastMakeCurrent (CompSurfContext.CompSurfContext 1 ctorAnswers sceneSetupFails "token" 1920
        1080 (some window) "assets" "cache" "misc").trace = some ⟨8, 8, 7⟩ ∧
    currentAfter Current.unbound (CompSurfContext.CompSurfContext 1 ctorAnswers sceneSetupFails
        "token" 1920 1080 (some window) "assets" "cache" "misc").trace = ⟨8, 8, 7⟩ ∧
    currentAfter Current.unbound (CompSurfContext.CompSurfContext 1 ctorAnswers sceneOk
        "token" 1920 1080 (some window) "assets" "cache" "misc").trace = Current.unbound :=
  ⟨⟨_, rfl⟩, by decide, by decide, by decide⟩

/-- C9, the code at the failing input: with `eglMakeCurrent` returning
`EGL_FALSE` at the start of `draw_frame`, the frame does not stop: it wraps the
frame buffer, creates the command buffer, renders the scene, submits, swaps and
returns. -/
theorem draw_frame_proceeds_when_make_current_fails :
    ((twoScenes sceneOk).draw_frame frameAnswersNotCurrent 0).status = Status.returned () ∧
    ((twoScenes sceneOk).draw_frame frameAnswersNotCurrent 0).trace
      = [Event.eglMakeCurrent 8 8 7 false,
         Event.WrapFBO PixelFormat.kR8G8B8A8UNormInt (ISize.MakeWH 0 0),
         Event.CreateCommandBuffer true,
         Event.SetLabel "Command Buffer",
         Event.CreateTexture (depth_texture_desc ⟨⟨640, 480⟩, none⟩) true,
         Event.SetDepthAttachment (depth ⟨⟨640, 480⟩, none⟩ true),
         Event.Render 1 true,
         Event.SubmitCommands true,
         Event.eglSwapBuffers 8,
         Event.eglMakeCurrent 0 0 0 true] ∧
    (built.draw_frame frameAnswersNotCurrent 0).status ≠ Status.aborted ∧
    Event.WrapFBO PixelFormat.kR8G8B8A8UNormInt (ISize.MakeWH 0 0)
      ∈ (built.draw_frame frameAnswersNotCurrent 0).trace :=
  ⟨by decide, by decide, by decide, by decide⟩

end CompSurf
